import Mathlib

/-!
Shallow embedding of `airpods.py` (AirPods Max BLE battery monitor) and
verification of its specification claims.

Bytes are modelled as `Nat` (values < 256 where it matters), byte strings as
`List Nat`, ASCII text as `List Char`.  Side effects (debug printing, the BLE
scanner, `asyncio.sleep`) are dropped or made explicit: the wall-clock
timestamp is a `String` parameter, and the scan sessions performed by
`get_status` are an oracle `Nat → Option (List Char)` giving the hex data
returned by `find_airpods` on each attempt.
-/

namespace AirStatus

/-- The `'charging'` sub-dict of a decoded battery result:
`{'left': bool, 'right': bool, 'case': None}` (`case` is `None` for
AirPods Max, modelled as `Option Bool`). -/
structure Charging where
  left : Bool
  right : Bool
  case_ : Option Bool
  deriving Repr, DecidableEq

/-- Result dict of `decode_airpods_max_battery`:
`{'left': int, 'right': int, 'case': None, 'charging': {...}}`.
Battery levels are `Int` because the failure branch returns `-1`. -/
structure BatteryInfo where
  left : Int
  right : Int
  case_ : Option Int
  charging : Charging
  deriving Repr, DecidableEq

/-- The `'battery'` sub-dict of a decoded status:
`{'left': int, 'right': int, 'case': None}`. -/
structure BatteryTriple where
  left : Int
  right : Int
  case_ : Option Int
  deriving Repr, DecidableEq

/-- A status dict as produced by `decode_status` / `get_status`.  A Python
key that is absent (or set to `None`) is `none`. -/
structure StatusResult where
  status : Nat
  model : Option String
  battery : Option BatteryTriple
  charging : Option Charging
  timestamp : Option String
  raw_data : Option String
  error : Option String
  deriving Repr, DecidableEq

/-- Lowercase hex digit for a nibble, as produced by `binascii.hexlify`:
`0`–`9` map to ASCII 48–57, `10`–`15` to `a`–`f` (ASCII 97–102). -/
def toHexDigitChar (n : Nat) : Char :=
  if n < 10 then Char.ofNat (48 + n) else Char.ofNat (87 + n)

/-- `binascii.hexlify`: each byte becomes two lowercase hex characters. -/
def hexlify : List Nat → List Char
  | [] => []
  | b :: rest => toHexDigitChar (b / 16) :: toHexDigitChar (b % 16) :: hexlify rest

/-- Value of a single hex digit character (`bytes.fromhex` accepts the
digits and both letter cases); `none` for a non-hex character. -/
def fromHexDigitChar (c : Char) : Option Nat :=
  if '0' ≤ c ∧ c ≤ '9' then some (c.toNat - 48)
  else if 'a' ≤ c ∧ c ≤ 'f' then some (c.toNat - 87)
  else if 'A' ≤ c ∧ c ≤ 'F' then some (c.toNat - 55)
  else none

/-- `bytes.fromhex`: pairs of hex digits, spaces permitted between pairs;
`none` models the `ValueError` raised on malformed input. -/
def fromhex : List Char → Option (List Nat)
  | [] => some []
  | c :: cs =>
    if c = ' ' then fromhex cs
    else
      match cs with
      | [] => none
      | c2 :: cs2 =>
        match fromHexDigitChar c, fromHexDigitChar c2 with
        | some hi, some lo => (fromhex cs2).map (fun t => (16 * hi + lo) :: t)
        | _, _ => none

/-- The dict returned by the `except` branch of `decode_airpods_max_battery`. -/
def decodeFailBattery : BatteryInfo :=
  { left := -1, right := -1, case_ := none,
    charging := { left := false, right := false, case_ := none } }

/-- `AirPodsMonitor.decode_airpods_max_battery`.  The `try` block reads
`data[12]` and `data[14]`; an out-of-range index raises `IndexError`, caught
by the `except` branch, so the failure case is exactly "either index is out
of range". -/
def decode_airpods_max_battery (data : List Nat) : BatteryInfo :=
  match data.get? 12, data.get? 14 with
  | some battery_byte, some charge_byte =>
    let battery_value := battery_byte &&& 0x0F
    let charging : Bool := (charge_byte &&& 0x80) != 0
    { left := (battery_value : Int), right := (battery_value : Int),
      case_ := none,
      charging := { left := charging, right := charging, case_ := none } }
  | _, _ => decodeFailBattery

/-- The `{'status': 0, 'error': 'Unsupported device type'}` dict. -/
def unsupportedResult : StatusResult :=
  { status := 0, model := none, battery := none, charging := none,
    timestamp := none, raw_data := none,
    error := some "Unsupported device type" }

/-- The `{'status': 0, 'error': str(e)}` dict of `decode_status`'s `except`
branch; the only statement in the `try` block that can raise on scanner
output is `bytes.fromhex`, whose `ValueError` text is modelled by a fixed
string. -/
def fromhexErrorResult : StatusResult :=
  { status := 0, model := none, battery := none, charging := none,
    timestamp := none, raw_data := none,
    error := some "non-hexadecimal number found in fromhex() arg" }

/-- `AirPodsMonitor.decode_status`.  `now` stands for
`datetime.now().strftime(...)`, `debug` for `self.debug`. -/
def decode_status (debug : Bool) (now : String) (hex_data : List Char) :
    StatusResult :=
  match fromhex hex_data with
  | none => fromhexErrorResult
  | some data =>
    if data.length = 27 ∧ data.get? 0 = some 0x12 then
      let battery_info := decode_airpods_max_battery data
      { status := 1, model := some "AirPods Max",
        battery := some { left := battery_info.left,
                          right := battery_info.right, case_ := none },
        charging := some battery_info.charging,
        timestamp := some now,
        raw_data := if debug then some (String.mk hex_data) else none,
        error := none }
    else unsupportedResult

/-- One BLE advertisement as delivered to `detection_callback`: the device
address, its RSSI, and the manufacturer-data dict (vendor id → raw bytes),
modelled as a lookup function. -/
structure Advertisement where
  address : String
  rssi : Int
  manufacturer_data : Nat → Option (List Nat)

/-- The mutable capture state of `AirPodsMonitor`
(`self.found_device` / `self.found_data`). -/
structure MonitorState where
  found_device : Option String
  found_data : Option (List Nat)
  deriving Repr, DecidableEq

/-- The monitor state after `__init__`: both fields `None`. -/
def initialState : MonitorState := { found_device := none, found_data := none }

/-- `AIRPODS_MANUFACTURER = 76` (Apple's vendor id). -/
def AIRPODS_MANUFACTURER : Nat := 76

/-- `AirPodsMonitor.detection_callback` as a state transition: if the
advertisement carries manufacturer data for vendor 76 whose payload has
length 27 and first byte `0x12`, the capture fields are (re)assigned;
otherwise the state is unchanged.  Debug printing is a side effect only. -/
def detection_callback (st : MonitorState) (ad : Advertisement) :
    MonitorState :=
  match ad.manufacturer_data AIRPODS_MANUFACTURER with
  | some data =>
    if data.length = 27 ∧ data.get? 0 = some 0x12 then
      { found_device := some ad.address, found_data := some data }
    else st
  | none => st

/-- One scan session: the callback is run on every advertisement delivered
during the 12-second window, in order of arrival, starting from the fresh
capture state. -/
def run_session (ads : List Advertisement) : MonitorState :=
  ads.foldl detection_callback initialState

/-- Whether an advertisement passes both the vendor filter and the shape
check of `detection_callback`. -/
def qualifies (ad : Advertisement) : Bool :=
  match ad.manufacturer_data AIRPODS_MANUFACTURER with
  | some data => decide (data.length = 27 ∧ data.get? 0 = some 0x12)
  | none => false

/-- The last qualifying advertisement of a session, i.e. the one whose
payload the code actually leaves in `found_data` (the code overwrites the
capture on every qualifying advertisement). -/
def capturedAd : List Advertisement → Option Advertisement
  | [] => none
  | ad :: ads =>
    match capturedAd ads with
    | some x => some x
    | none => if qualifies ad then some ad else none

/-- End of `find_airpods`: `if self.found_data: return hexlify(self.found_data)`
else `None` (an empty byte string is falsy in Python). -/
def find_airpods (st : MonitorState) : Option (List Char) :=
  match st.found_data with
  | some data => if data.length ≠ 0 then some (hexlify data) else none
  | none => none

/-- The `{'status': 0, 'error': 'AirPods Max not found'}` dict returned by
`get_status` when every attempt fails. -/
def notFoundResult : StatusResult :=
  { status := 0, model := none, battery := none, charging := none,
    timestamp := none, raw_data := none,
    error := some "AirPods Max not found" }

/-- The loop of `AirPodsMonitor.get_status`, instrumented with counts.
`source i` is the value returned by `await self.find_airpods()` on attempt
`i`; `remaining` is the number of loop iterations still to run (initially
`max_attempts`).  The result is the returned status dict together with the
number of scan sessions performed and the number of 1-second back-off sleeps
executed (`attempt < max_attempts - 1` holds exactly when further iterations
remain). -/
def get_statusGo (debug : Bool) (now : String)
    (source : Nat → Option (List Char)) (attempt : Nat) :
    Nat → StatusResult × Nat × Nat
  | 0 => (notFoundResult, 0, 0)
  | remaining + 1 =>
    match source attempt with
    | some hex_data => (decode_status debug now hex_data, 1, 0)
    | none =>
      let rest := get_statusGo debug now source (attempt + 1) remaining
      (rest.1, rest.2.1 + 1, rest.2.2 + (if remaining = 0 then 0 else 1))

/-- `AirPodsMonitor.get_status(max_attempts)`: runs the retry loop from
attempt 0; returns the status dict, the number of sessions run, and the
number of back-off sleeps. -/
def get_status (debug : Bool) (now : String)
    (source : Nat → Option (List Char)) (max_attempts : Nat) :
    StatusResult × Nat × Nat :=
  get_statusGo debug now source 0 max_attempts

/-! ### Helper lemmas -/

theorem fromHex_toHex : ∀ n < 16, fromHexDigitChar (toHexDigitChar n) = some n := by
  decide

theorem toHex_ne_space : ∀ n < 16, toHexDigitChar n ≠ ' ' := by
  decide

/-- Round trip of the hex encoding: parsing `hexlify d` recovers `d`
whenever `d` is a genuine byte string (all entries < 256). -/
theorem fromhex_hexlify (d : List Nat) (h : ∀ b ∈ d, b < 256) :
    fromhex (hexlify d) = some d := by
  induction d with
  | nil => rfl
  | cons b rest ih =>
    have hb : b < 256 := h b (by simp)
    have hrest : ∀ x ∈ rest, x < 256 := fun x hx => h x (by simp [hx])
    have h1 : b / 16 < 16 := Nat.div_lt_of_lt_mul (by omega)
    have h2 : b % 16 < 16 := Nat.mod_lt _ (by omega)
    simp only [hexlify, fromhex]
    rw [if_neg (toHex_ne_space _ h1), fromHex_toHex _ h1, fromHex_toHex _ h2,
      ih hrest]
    simp [Nat.div_add_mod]

theorem detection_callback_qualifies (st : MonitorState) (ad : Advertisement)
    (h : qualifies ad = true) :
    detection_callback st ad =
      { found_device := some ad.address,
        found_data := ad.manufacturer_data AIRPODS_MANUFACTURER } := by
  unfold qualifies at h
  split at h
  · next data hmd =>
    simp only [decide_eq_true_eq] at h
    simp only [detection_callback, hmd]
    rw [if_pos h]
  · exact absurd h (by simp)

theorem detection_callback_not_qualifies (st : MonitorState)
    (ad : Advertisement) (h : qualifies ad = false) :
    detection_callback st ad = st := by
  unfold qualifies at h
  split at h
  · next data hmd =>
    simp only [decide_eq_false_iff_not] at h
    simp only [detection_callback, hmd]
    rw [if_neg h]
  · next hmd => simp [detection_callback, hmd]

/-- The state after folding the callback over a session's advertisements is
determined by the last qualifying advertisement (if any). -/
theorem run_foldl (ads : List Advertisement) : ∀ st : MonitorState,
    ads.foldl detection_callback st =
      match capturedAd ads with
      | some ad =>
        { found_device := some ad.address,
          found_data := ad.manufacturer_data AIRPODS_MANUFACTURER }
      | none => st := by
  induction ads with
  | nil => intro st; rfl
  | cons ad ads ih =>
    intro st
    rw [List.foldl_cons, ih]
    simp only [capturedAd]
    cases hc : capturedAd ads with
    | some x => simp
    | none =>
      cases hq : qualifies ad with
      | true => simp [detection_callback_qualifies st ad hq]
      | false => simp [detection_callback_not_qualifies st ad hq]

theorem get_statusGo_sessions_le (debug : Bool) (now : String)
    (source : Nat → Option (List Char)) :
    ∀ r a, (get_statusGo debug now source a r).2.1 ≤ r := by
  intro r
  induction r with
  | zero => intro a; simp [get_statusGo]
  | succ r ih =>
    intro a
    simp only [get_statusGo]
    cases hs : source a with
    | some hex => simp
    | none =>
      have := ih (a + 1)
      simp only []
      omega

/-- If the first `k` sessions starting at `attempt` fail and session
`attempt + k` captures `hex` (with `k` attempts still within the budget),
the loop returns that capture's decode after exactly `k + 1` sessions and
`k` back-off sleeps. -/
theorem get_statusGo_capture (debug : Bool) (now : String)
    (source : Nat → Option (List Char)) (hex : List Char) :
    ∀ k m attempt : Nat, (∀ i, i < k → source (attempt + i) = none) →
      source (attempt + k) = some hex → k < m →
      get_statusGo debug now source attempt m =
        (decode_status debug now hex, k + 1, k) := by
  intro k
  induction k with
  | zero =>
    intro m attempt _ hk hm
    cases m with
    | zero => omega
    | succ r =>
      rw [Nat.add_zero] at hk
      simp only [get_statusGo, hk]
  | succ k ih =>
    intro m attempt h0 hk hm
    cases m with
    | zero => omega
    | succ r =>
      have ha : source attempt = none := by
        have h := h0 0 (by omega)
        rwa [Nat.add_zero] at h
      have hrec := ih r (attempt + 1)
        (fun i hi => by
          have h := h0 (i + 1) (by omega)
          rwa [show attempt + (i + 1) = attempt + 1 + i from by omega] at h)
        (by rwa [show attempt + (k + 1) = attempt + 1 + k from by omega] at hk)
        (by omega)
      simp only [get_statusGo, ha]
      rw [hrec, if_neg (show ¬r = 0 by omega)]

theorem decode_status_status_zero (debug : Bool) (now : String)
    (hex : List Char) (h : (decode_status debug now hex).status = 0) :
    ((decode_status debug now hex).error).isSome = true ∧
      (decode_status debug now hex).battery = none ∧
      (decode_status debug now hex).charging = none ∧
      (decode_status debug now hex).model = none := by
  cases hf : fromhex hex with
  | none =>
    simp only [decode_status, hf]
    simp [fromhexErrorResult]
  | some data =>
    by_cases hc : data.length = 27 ∧ data.get? 0 = some 0x12
    · simp only [decode_status, hf] at h
      rw [if_pos hc] at h
      exact absurd h (by simp)
    · simp only [decode_status, hf]
      rw [if_neg hc]
      simp [unsupportedResult]

theorem get_statusGo_status_zero (debug : Bool) (now : String)
    (source : Nat → Option (List Char)) :
    ∀ r a, ((get_statusGo debug now source a r).1).status = 0 →
      (((get_statusGo debug now source a r).1).error).isSome = true ∧
        ((get_statusGo debug now source a r).1).battery = none ∧
        ((get_statusGo debug now source a r).1).charging = none ∧
        ((get_statusGo debug now source a r).1).model = none := by
  intro r
  induction r with
  | zero => intro a _; simp [get_statusGo, notFoundResult]
  | succ r ih =>
    intro a
    simp only [get_statusGo]
    cases hs : source a with
    | some hex =>
      intro h
      exact decode_status_status_zero debug now hex h
    | none =>
      intro h
      exact ih (a + 1) h

/-! ### Claim theorems -/

/-- C1: for every validated AirPods Max payload (length 27, first byte
`0x12`), `decode_airpods_max_battery` returns
`left = right = payload[12] & 0x0F`, `case = None`, and
`charging.left = charging.right = (payload[14] & 0x80 != 0)` with
`charging.case = None`. -/
theorem decode_max_validated (data : List Nat) (h : data.length = 27)
    (h0 : data.get? 0 = some 0x12) (b12 b14 : Nat)
    (h12 : data.get? 12 = some b12) (h14 : data.get? 14 = some b14) :
    decode_airpods_max_battery data =
      { left := ((b12 &&& 0x0F : Nat) : Int),
        right := ((b12 &&& 0x0F : Nat) : Int), case_ := none,
        charging := { left := ((b14 &&& 0x80) != 0),
                      right := ((b14 &&& 0x80) != 0), case_ := none } } := by
  simp only [decode_airpods_max_battery, h12, h14]

/-- Witness for C1 at the two example payloads: `payload[12] = 0x05`,
`payload[14] = 0x80` decodes to 5/5 charging, and `payload[12] = 0x0F`,
`payload[14] = 0x00` decodes to 15/15 not charging. -/
theorem decode_max_validated_witness :
    decode_airpods_max_battery
        [0x12, 0, 0, 0, 0, 0, 0, 0, 0, 0, 0, 0, 0x05, 0, 0x80,
         0, 0, 0, 0, 0, 0, 0, 0, 0, 0, 0, 0] =
      { left := 5, right := 5, case_ := none,
        charging := { left := true, right := true, case_ := none } } ∧
    decode_airpods_max_battery
        [0x12, 0, 0, 0, 0, 0, 0, 0, 0, 0, 0, 0, 0x0F, 0, 0x00,
         0, 0, 0, 0, 0, 0, 0, 0, 0, 0, 0, 0] =
      { left := 15, right := 15, case_ := none,
        charging := { left := false, right := false, case_ := none } } := by
  constructor
  · rw [decode_max_validated _ (by decide) (by decide) 0x05 0x80
      (by decide) (by decide)]
    decide
  · rw [decode_max_validated _ (by decide) (by decide) 0x0F 0x00
      (by decide) (by decide)]
    decide

/-- C2: a payload whose length is not 27 or whose first byte is not `0x12`
never reaches the Battery Decoder: the detection callback leaves the capture
state unchanged, and `decode_status` on such a payload returns the
`{'status': 0, 'error': 'Unsupported device type'}` dict (which carries no
battery data). -/
theorem shape_validation_rejects :
    (∀ (st : MonitorState) (ad : Advertisement) (data : List Nat),
        ad.manufacturer_data AIRPODS_MANUFACTURER = some data →
        ¬(data.length = 27 ∧ data.get? 0 = some 0x12) →
        detection_callback st ad = st) ∧
    (∀ (debug : Bool) (now : String) (data : List Nat),
        (∀ b ∈ data, b < 256) →
        ¬(data.length = 27 ∧ data.get? 0 = some 0x12) →
        decode_status debug now (hexlify data) = unsupportedResult) := by
  constructor
  · intro st ad data hmd hshape
    simp only [detection_callback, hmd]
    rw [if_neg hshape]
  · intro debug now data hb hshape
    simp only [decode_status, fromhex_hexlify data hb]
    rw [if_neg hshape]

/-- Witness for C2: a 2-byte payload `[0x07, 0x19]` is not captured by the
callback and decodes to the unsupported-device outcome. -/
theorem shape_validation_rejects_witness :
    detection_callback initialState
        { address := "11:22:33:44:55:66", rssi := -50,
          manufacturer_data :=
            fun v => if v = 76 then some [0x07, 0x19] else none } =
      initialState ∧
    decode_status false "2026-10-12 00:00:00" (hexlify [0x07, 0x19]) =
      unsupportedResult := by
  constructor
  · exact shape_validation_rejects.1 _ _ [0x07, 0x19] rfl (by decide)
  · exact shape_validation_rejects.2 false _ [0x07, 0x19] (by decide) (by decide)

/-- C3 counterexample: two qualifying advertisements in one session; the
capture ends up holding the SECOND payload, not the first — the code
overwrites the capture on every qualifying advertisement, so the claimed
first-match-wins behavior is false. -/
theorem first_match_wins_counterexample :
    (run_session
        [{ address := "AA", rssi := -40,
           manufacturer_data :=
             fun v => if v = 76 then some (0x12 :: List.replicate 26 1) else none },
         { address := "BB", rssi := -40,
           manufacturer_data :=
             fun v => if v = 76 then some (0x12 :: List.replicate 26 2) else none }]).found_data =
      some (0x12 :: List.replicate 26 2) ∧
    (0x12 :: List.replicate 26 2) ≠ (0x12 :: List.replicate 26 1) := by
  constructor
  · decide
  · decide

/-- C3 amended: each qualifying advertisement overwrites the capture, so at
session end the captured device and payload are those of the LAST qualifying
advertisement observed (last-match-wins); non-qualifying advertisements
leave the capture unchanged, and a session with no qualifying advertisement
captures nothing. -/
theorem last_match_wins (ads : List Advertisement) :
    (run_session ads).found_data =
      (capturedAd ads).bind
        (fun ad => ad.manufacturer_data AIRPODS_MANUFACTURER) ∧
    (run_session ads).found_device =
      (capturedAd ads).map (fun ad => ad.address) := by
  unfold run_session
  rw [run_foldl]
  cases capturedAd ads <;> simp [initialState]

/-- C4 (code bug evidence): the detection callback never inspects the
advertisement's RSSI — its result is invariant under changing `rssi` — and a
concrete advertisement with RSSI −100 (below both the `MIN_RSSI = -70` class
default and the documented `--min-rssi` default −90) carrying a valid
payload IS captured.  The configured threshold is never applied anywhere in
the code. -/
theorem rssi_never_filtered :
    (∀ (st : MonitorState) (addr : String) (r1 r2 : Int)
        (md : Nat → Option (List Nat)),
        detection_callback st { address := addr, rssi := r1,
                                manufacturer_data := md } =
          detection_callback st { address := addr, rssi := r2,
                                  manufacturer_data := md }) ∧
    (run_session
        [{ address := "AA", rssi := -100,
           manufacturer_data :=
             fun v => if v = 76 then some (0x12 :: List.replicate 26 3) else none }]).found_data =
      some (0x12 :: List.replicate 26 3) := by
  constructor
  · intro st addr r1 r2 md
    rfl
  · decide

/-- C5: the Battery Decoder is a total function; on any payload too short
for the offsets it reads (`data[12]` and `data[14]`, i.e. length < 15) it
returns the explicit failure dict with sentinel −1 and charging false on
every channel — never a default such as 0. -/
theorem decode_malformed (data : List Nat) (h : data.length < 15) :
    decode_airpods_max_battery data =
      { left := -1, right := -1, case_ := none,
        charging := { left := false, right := false, case_ := none } } := by
  have h14 : data.get? 14 = none := by
    rw [List.get?_eq_none]
    omega
  cases h12 : data.get? 12 with
  | none => simp only [decode_airpods_max_battery, h12, h14, decodeFailBattery]
  | some b => simp only [decode_airpods_max_battery, h12, h14, decodeFailBattery]

/-- Witness for C5 at a 14-byte payload (offset 14 out of range). -/
theorem decode_malformed_witness :
    decode_airpods_max_battery
        [0x12, 0, 0, 0, 0, 0, 0, 0, 0, 0, 0, 0, 0x05, 0] =
      { left := -1, right := -1, case_ := none,
        charging := { left := false, right := false, case_ := none } } :=
  decode_malformed _ (by decide)

/-- C6: `get_status` runs at most `max_attempts` sessions; with a source
that never matches and `max_attempts = 3` it runs exactly 3 sessions with
exactly 2 back-off sleeps and returns the not-found dict (status 0, no
model/battery/charging fields); and on the first session that captures a
payload — attempt `k`, after `k` failed sessions, for any `k` within the
budget — it decodes that capture and returns immediately, having run
exactly `k + 1` sessions and `k` back-off sleeps. -/
theorem get_status_retry (debug : Bool) (now : String) :
    (∀ (source : Nat → Option (List Char)) (m : Nat),
        (get_status debug now source m).2.1 ≤ m) ∧
    (∀ source : Nat → Option (List Char), (∀ i, source i = none) →
        get_status debug now source 3 = (notFoundResult, 3, 2)) ∧
    (∀ (source : Nat → Option (List Char)) (hex : List Char) (k m : Nat),
        (∀ i, i < k → source i = none) → source k = some hex → k < m →
        get_status debug now source m =
          (decode_status debug now hex, k + 1, k)) ∧
    (notFoundResult.status = 0 ∧ notFoundResult.model = none ∧
      notFoundResult.battery = none ∧ notFoundResult.charging = none) := by
  refine ⟨?_, ?_, ?_, by simp [notFoundResult]⟩
  · intro source m
    exact get_statusGo_sessions_le debug now source m 0
  · intro source h
    show get_statusGo debug now source 0 3 = (notFoundResult, 3, 2)
    simp [get_statusGo, h]
  · intro source hex k m h0 hk hm
    show get_statusGo debug now source 0 m = _
    exact get_statusGo_capture debug now source hex k m 0
      (fun i hi => by rw [Nat.zero_add]; exact h0 i hi)
      (by rwa [Nat.zero_add]) hm

/-- Witness for C6: a never-matching source with 3 attempts, and a source
whose first capture is on attempt 1 out of 3 (2 sessions, 1 sleep). -/
theorem get_status_retry_witness :
    get_status false "t" (fun _ => none) 3 = (notFoundResult, 3, 2) ∧
    get_status false "t"
        (fun i => if i = 1 then some (hexlify (0x12 :: List.replicate 26 0))
                  else none) 3 =
      (decode_status false "t" (hexlify (0x12 :: List.replicate 26 0)), 2, 1) := by
  constructor
  · exact (get_status_retry false "t").2.1 _ (fun i => rfl)
  · exact (get_status_retry false "t").2.2.1 _ _ 1 3
      (fun i hi => by
        have h : i = 0 := by omega
        rw [h]
        rfl)
      rfl (by omega)

/-- C7: decoding is deterministic — the status, model, battery, charging
and error fields of `decode_status` depend only on the input payload, not on
the run (modelled by the wall-clock string and the debug flag, which only
affect the `timestamp` and `raw_data` fields). -/
theorem decode_status_deterministic (hex : List Char) (d1 d2 : Bool)
    (n1 n2 : String) :
    (decode_status d1 n1 hex).status = (decode_status d2 n2 hex).status ∧
    (decode_status d1 n1 hex).model = (decode_status d2 n2 hex).model ∧
    (decode_status d1 n1 hex).battery = (decode_status d2 n2 hex).battery ∧
    (decode_status d1 n1 hex).charging = (decode_status d2 n2 hex).charging ∧
    (decode_status d1 n1 hex).error = (decode_status d2 n2 hex).error := by
  cases hf : fromhex hex with
  | none => simp [decode_status, hf]
  | some data =>
    by_cases hc : data.length = 27 ∧ data.get? 0 = some 0x12
    · simp only [decode_status, hf]
      rw [if_pos hc, if_pos hc]
      exact ⟨rfl, rfl, rfl, rfl, rfl⟩
    · simp only [decode_status, hf]
      rw [if_neg hc, if_neg hc]
      exact ⟨rfl, rfl, rfl, rfl, rfl⟩

/-- C8: every result with status 0 — whether from the unsupported-device
path, the decode-exception path, or all attempts timing out — has its error
field populated and no battery, charging, or model fields. -/
theorem status_zero_shape :
    (∀ (debug : Bool) (now : String) (hex : List Char),
        (decode_status debug now hex).status = 0 →
          ((decode_status debug now hex).error).isSome = true ∧
            (decode_status debug now hex).battery = none ∧
            (decode_status debug now hex).charging = none ∧
            (decode_status debug now hex).model = none) ∧
    (∀ (debug : Bool) (now : String) (source : Nat → Option (List Char))
        (m : Nat),
        ((get_status debug now source m).1).status = 0 →
          (((get_status debug now source m).1).error).isSome = true ∧
            ((get_status debug now source m).1).battery = none ∧
            ((get_status debug now source m).1).charging = none ∧
            ((get_status debug now source m).1).model = none) := by
  refine ⟨decode_status_status_zero, ?_⟩
  intro debug now source m
  exact get_statusGo_status_zero debug now source m 0

/-- Witness for C8 at the timed-out path (`max_attempts = 1`, source never
matches). -/
theorem status_zero_shape_witness :
    (((get_status false "t" (fun _ => none) 1).1).error).isSome = true ∧
    ((get_status false "t" (fun _ => none) 1).1).battery = none ∧
    ((get_status false "t" (fun _ => none) 1).1).charging = none ∧
    ((get_status false "t" (fun _ => none) 1).1).model = none :=
  status_zero_shape.2 false "t" (fun _ => none) 1 rfl

/-- C9: hex round-trip — `find_airpods` returns `hexlify` of the captured
payload, and `bytes.fromhex` at the start of `decode_status` reconstructs
exactly the original byte sequence, so the Battery Decoder operates on the
bytes originally received. -/
theorem hex_roundtrip (d : List Nat) (hb : ∀ b ∈ d, b < 256)
    (hne : d ≠ []) (dev : Option String) :
    find_airpods { found_device := dev, found_data := some d } =
      some (hexlify d) ∧
    fromhex (hexlify d) = some d := by
  constructor
  · simp only [find_airpods]
    rw [if_pos]
    simpa using hne
  · exact fromhex_hexlify d hb

/-- Witness for C9 at the byte string `[0x12, 0xab]`. -/
theorem hex_roundtrip_witness :
    find_airpods { found_device := some "AA",
                   found_data := some [0x12, 0xab] } =
      some (hexlify [0x12, 0xab]) ∧
    fromhex (hexlify [0x12, 0xab]) = some [0x12, 0xab] :=
  hex_roundtrip [0x12, 0xab] (by decide) (by decide) (some "AA")

/-- C10: for every input payload, the decoder's result has `left = right`,
`case` and `charging.case` null, and the battery value is either the
sentinel −1 or in the range 0..15 (4-bit mask — it can never express
16..100). -/
theorem decode_result_invariants (data : List Nat) :
    (decode_airpods_max_battery data).left =
      (decode_airpods_max_battery data).right ∧
    (decode_airpods_max_battery data).case_ = none ∧
    ((decode_airpods_max_battery data).charging).case_ = none ∧
    ((decode_airpods_max_battery data).left = -1 ∨
      (0 ≤ (decode_airpods_max_battery data).left ∧
        (decode_airpods_max_battery data).left ≤ 15)) := by
  cases h12 : data.get? 12 with
  | none =>
    cases h14 : data.get? 14 with
    | none =>
      have hdec : decode_airpods_max_battery data = decodeFailBattery := by
        simp only [decode_airpods_max_battery, h12, h14]
      rw [hdec]
      exact ⟨rfl, rfl, rfl, Or.inl rfl⟩
    | some b14 =>
      have hdec : decode_airpods_max_battery data = decodeFailBattery := by
        simp only [decode_airpods_max_battery, h12, h14]
      rw [hdec]
      exact ⟨rfl, rfl, rfl, Or.inl rfl⟩
  | some b12 =>
    cases h14 : data.get? 14 with
    | none =>
      have hdec : decode_airpods_max_battery data = decodeFailBattery := by
        simp only [decode_airpods_max_battery, h12, h14]
      rw [hdec]
      exact ⟨rfl, rfl, rfl, Or.inl rfl⟩
    | some b14 =>
      have hdec : decode_airpods_max_battery data =
          { left := ((b12 &&& 0x0F : Nat) : Int),
            right := ((b12 &&& 0x0F : Nat) : Int), case_ := none,
            charging := { left := ((b14 &&& 0x80) != 0),
                          right := ((b14 &&& 0x80) != 0), case_ := none } } := by
        simp only [decode_airpods_max_battery, h12, h14]
      rw [hdec]
      refine ⟨rfl, rfl, rfl, Or.inr ⟨Int.natCast_nonneg _, ?_⟩⟩
      show ((b12 &&& 15 : Nat) : Int) ≤ 15
      have hle : b12 &&& 15 ≤ 15 := Nat.and_le_right
      exact_mod_cast hle

end AirStatus
